import Mathlib

/-!
Verification of the card-extraction and page-traversal logic of
`scrapper.py` (the yearly university-guide scraper).

The HTML documents handled by the scraper are embedded as a tree type
`Node`; the BeautifulSoup operations the source uses (`find`,
`find_all`, `.text`, `decompose`, attribute lookup) are modelled as
pure traversals of that tree, and the Python string operations
(`strip`, `replace`, `re.sub(" +", " ")`, `re.sub(", *,", ",")`,
`rsplit(sep, maxsplit=1)`, `int(...)`) are modelled character-by-
character with CPython semantics (`re.sub` scans left to right and
resumes after each non-overlapping match).

`process_card` mutates its argument (it decomposes the label `span` of
every paired paragraph), so the extraction is split into a value part
(`process_card`, returning `Except ExtractError CardData`) and an
explicit document-state part (`process_card_post`, returning the card
tree as it stands after the call).
-/

set_option maxRecDepth 20000

namespace Guide

/-- HTML node: an element with tag, class list, attribute list and children,
or a text node. -/
inductive Node where
  | text (s : String)
  | elem (tag : String) (classes : List String) (attrs : List (String × String))
      (children : List Node)
deriving Repr

mutual
def decEqNode : (a b : Node) → Decidable (a = b)
  | .text s, .text t =>
    if h : s = t then .isTrue (by rw [h]) else .isFalse (by intro k; cases k; exact h rfl)
  | .text _, .elem _ _ _ _ => .isFalse (by intro k; cases k)
  | .elem _ _ _ _, .text _ => .isFalse (by intro k; cases k)
  | .elem t1 c1 a1 ch1, .elem t2 c2 a2 ch2 =>
    if h1 : t1 = t2 then
      if h2 : c1 = c2 then
        if h3 : a1 = a2 then
          match decEqNodeList ch1 ch2 with
          | .isTrue h4 => .isTrue (by rw [h1, h2, h3, h4])
          | .isFalse h4 => .isFalse (by intro k; cases k; exact h4 rfl)
        else .isFalse (by intro k; cases k; exact h3 rfl)
      else .isFalse (by intro k; cases k; exact h2 rfl)
    else .isFalse (by intro k; cases k; exact h1 rfl)
def decEqNodeList : (a b : List Node) → Decidable (a = b)
  | [], [] => .isTrue rfl
  | [], _ :: _ => .isFalse (by intro k; cases k)
  | _ :: _, [] => .isFalse (by intro k; cases k)
  | a :: as, b :: bs =>
    match decEqNode a b with
    | .isTrue h1 =>
      match decEqNodeList as bs with
      | .isTrue h2 => .isTrue (by rw [h1, h2])
      | .isFalse h2 => .isFalse (by intro k; cases k; exact h2 rfl)
    | .isFalse h1 => .isFalse (by intro k; cases k; exact h1 rfl)
end

instance : DecidableEq Node := decEqNode

/-- Does the node carry the given tag (text nodes have none)? -/
def tagIs (t : String) : Node → Bool
  | .elem tg _ _ _ => tg = t
  | .text _ => false

/-- Does the node's `class` list contain the given class? -/
def hasClass (cls : String) : Node → Bool
  | .elem _ cs _ _ => cs.contains cls
  | .text _ => false

/-- Predicate for `find(tag, class_=cls)`-style queries. -/
def matchesTC (t cls : String) (n : Node) : Bool :=
  tagIs t n && hasClass cls n

/-- Attribute lookup, `tag.get(key)`: `none` when absent or on a text node. -/
def getAttr (k : String) : Node → Option String
  | .elem _ _ attrs _ => (attrs.find? (fun kv => kv.1 = k)).map (fun kv => kv.2)
  | .text _ => none

mutual
/-- BeautifulSoup `tag.find(pred)`: first strict descendant, in document
(preorder) order, satisfying the predicate. -/
def findFirst (p : Node → Bool) : Node → Option Node
  | .text _ => none
  | .elem _ _ _ ch => findFirstList p ch
def findFirstList (p : Node → Bool) : List Node → Option Node
  | [] => none
  | n :: ns =>
    if p n then some n else
      match findFirst p n with
      | some r => some r
      | none => findFirstList p ns
end

mutual
/-- BeautifulSoup `tag.find_all(pred)`: every strict descendant, in document
(preorder) order, satisfying the predicate (matches are also searched inside). -/
def findAll (p : Node → Bool) : Node → List Node
  | .text _ => []
  | .elem _ _ _ ch => findAllList p ch
def findAllList (p : Node → Bool) : List Node → List Node
  | [] => []
  | n :: ns => (if p n then [n] else []) ++ findAll p n ++ findAllList p ns
end

mutual
/-- BeautifulSoup `.text`: concatenation of every descendant text node, in
document order (as a character list). -/
def innerText : Node → List Char
  | .text s => s.data
  | .elem _ _ _ ch => innerTextList ch
def innerTextList : List Node → List Char
  | [] => []
  | n :: ns => innerText n ++ innerTextList ns
end

mutual
/-- Remove the first descendant (preorder) satisfying the predicate —
`tag.find(pred).decompose()`. Returns `none` when no descendant matches
(in the source that is `find` returning `None`, so `.decompose()` raises
`AttributeError`). -/
def removeFirst (p : Node → Bool) : Node → Option Node
  | .text _ => none
  | .elem t c a ch => (removeFirstList p ch).map (Node.elem t c a)
def removeFirstList (p : Node → Bool) : List Node → Option (List Node)
  | [] => none
  | n :: ns =>
    if p n then some ns
    else
      match removeFirst p n with
      | some n2 => some (n2 :: ns)
      | none => (removeFirstList p ns).map (fun ns2 => n :: ns2)
end

mutual
/-- Replace the first descendant (preorder) satisfying the predicate by the
image under `f` of that descendant; `none` when no descendant matches. -/
def mapFirst (p : Node → Bool) (f : Node → Node) : Node → Option Node
  | .text _ => none
  | .elem t c a ch => (mapFirstList p f ch).map (Node.elem t c a)
def mapFirstList (p : Node → Bool) (f : Node → Node) : List Node → Option (List Node)
  | [] => none
  | n :: ns =>
    if p n then some (f n :: ns)
    else
      match mapFirst p f n with
      | some n2 => some (n2 :: ns)
      | none => (mapFirstList p f ns).map (fun ns2 => n :: ns2)
end

/-- Apply `f` in place to the first matching descendant; identity when there
is none. -/
def mapFirstD (p : Node → Bool) (f : Node → Node) (n : Node) : Node :=
  (mapFirst p f n).getD n

/-! ### Python string primitives -/

/-- The ASCII whitespace Python's `str.strip()` and `int()` remove. -/
def isPySpace (c : Char) : Bool :=
  c = ' ' || c = '\t' || c = '\n' || c = '\r' || c = Char.ofNat 11 || c = Char.ofNat 12

/-- Python `str.strip()`. -/
def pyStrip (l : List Char) : List Char :=
  ((l.dropWhile isPySpace).reverse.dropWhile isPySpace).reverse

/-- ASCII lowering, the effect of Python `str.lower()` on the ASCII text the
scraper handles. -/
def lowerAscii (l : List Char) : List Char :=
  l.map Char.toLower

/-- Python `pat in s` for plain strings: is `pat` a contiguous substring? -/
def isSubstring (pat l : List Char) : Bool :=
  (List.range (l.length + 1)).any (fun i => pat.isPrefixOf (l.drop i))

/-- Scanner for `re.sub(" +", " ", s)`: `emitted` records whether the scanner
is inside a run of spaces whose single replacement space was already emitted. -/
def csRun (emitted : Bool) : List Char → List Char
  | [] => []
  | c :: cs =>
    if c = ' ' then
      if emitted then csRun true cs else ' ' :: csRun true cs
    else c :: csRun false cs

/-- Python `re.sub(" +", " ", s)`: every maximal run of spaces becomes one
space. -/
def collapseSpaces (l : List Char) : List Char :=
  csRun false l

/-- Scanner for `re.sub(", *,", ",", s)`. `armed = false`: plain scanning.
`armed = true` with `k` pending spaces: a `','` was read and `k` spaces
followed; a further `','` completes a match (the replacement `","` is
emitted and scanning resumes after the match), anything else emits the
pending characters unreplaced. -/
def ccRun (armed : Bool) (k : Nat) : List Char → List Char
  | [] => if armed then ',' :: List.replicate k ' ' else []
  | c :: cs =>
    if armed then
      if c = ',' then ',' :: ccRun false 0 cs
      else if c = ' ' then ccRun true (k + 1) cs
      else ',' :: List.replicate k ' ' ++ c :: ccRun false 0 cs
    else
      if c = ',' then ccRun true 0 cs
      else c :: ccRun false 0 cs

/-- Python `re.sub(", *,", ",", s)`: each non-overlapping match of
comma–spaces–comma (scanned left to right) becomes a single comma. -/
def collapseCommas (l : List Char) : List Char :=
  ccRun false 0 l

/-- Lines 71–73 of the source, applied to each paired paragraph's text:
`.strip()`, `.replace("\n", " ")`, space collapse, comma collapse. -/
def normalizeField (l : List Char) : String :=
  ⟨collapseCommas (collapseSpaces ((pyStrip l).map (fun c => if c = '\n' then ' ' else c)))⟩

/-- Python `s.rsplit(sep, maxsplit=1)` when `sep` occurs: the parts before and
after the last occurrence of `sep`; `none` when `sep` does not occur (the
source's unpacking of that result into two names then raises `ValueError`). -/
def rsplitOnce (sep : Char) (l : List Char) : Option (List Char × List Char) :=
  match l.reverse.findIdx? (fun c => c = sep) with
  | none => none
  | some i => some (l.take (l.length - 1 - i), l.drop (l.length - i))

/-- Python `s.rsplit(sep, maxsplit=1)[-1]`: the part after the last `sep`, or
the whole string when `sep` does not occur. -/
def afterLast (sep : Char) (l : List Char) : List Char :=
  match rsplitOnce sep l with
  | none => l
  | some (_, a) => a

/-- Digit-string value: `some` only when the list is nonempty and all digits. -/
def digitsToNat (l : List Char) : Option Nat :=
  if l = [] then none
  else if l.all Char.isDigit then
    some (l.foldl (fun a c => a * 10 + (c.toNat - 48)) 0)
  else none

/-- Python `int(s)` on the strings the scraper meets: surrounding whitespace
stripped, optional sign, nonempty digit run; `none` models `ValueError`. -/
def pyInt (l : List Char) : Option Int :=
  match pyStrip l with
  | '-' :: rest => (digitsToNat rest).map (fun n => -(n : Int))
  | '+' :: rest => (digitsToNat rest).map (fun n => (n : Int))
  | rest => (digitsToNat rest).map (fun n => (n : Int))

/-! ### The record schema (`CardData`, lines 14–29)

Pydantic coerces and checks types at `model_validate`; every field except
`endereco`, `cidade`, `estado` (declared `str | None = None`) is required,
so validation fails exactly when a required key is missing from the data
dict. `ano_avaliacao` stands for the source's `ano_avaliação` field. -/

structure CardData where
  ies : String
  nome : String
  modalidade : String
  verbete : String
  titulacao : String
  campus : String
  categoria : String
  duracao : String
  endereco : Option String
  site : String
  telefone : String
  avaliacao : Nat
  cidade : Option String
  estado : Option String
  ano_avaliacao : Int
deriving DecidableEq, Repr

instance {ε α : Type} [DecidableEq ε] [DecidableEq α] : DecidableEq (Except ε α)
  | .ok a, .ok b =>
    if h : a = b then .isTrue (by rw [h]) else .isFalse (by intro k; cases k; exact h rfl)
  | .ok _, .error _ => .isFalse (by intro k; cases k)
  | .error _, .ok _ => .isFalse (by intro k; cases k)
  | .error e, .error f =>
    if h : e = f then .isTrue (by rw [h]) else .isFalse (by intro k; cases k; exact h rfl)

/-- The ways `process_card` can raise instead of returning a record. -/
inductive ExtractError where
  /-- Raised when `card.find("div", class_="box-completo")` found nothing, so
  `body.text` (line 64) raises `AttributeError`. -/
  | noBody
  /-- a paired paragraph has no `span` descendant, so
  `p_elem.find("span").decompose()` (line 70) raises `AttributeError`. -/
  | noSpan
  /-- Raised when `card.find("div", class_="box-basico")` found nothing, so
  `header.find_all` (line 77) raises `AttributeError`. -/
  | noHeader
  /-- fewer than three paragraphs were paired, so `data["modalidade"]`
  (line 78) raises `KeyError`. -/
  | keyModalidade
  /-- the header has fewer than two paragraphs, so
  `header.find_all("p")[1]` (line 79) raises `IndexError`. -/
  | headerIndex
  /-- the text after the last pipe has no hyphen, so unpacking
  `rsplit("-", maxsplit=1)` into two names (line 79) raises `ValueError`. -/
  | unpack
  /-- Raised when `CardData.model_validate` (line 83) failed: a required field is
  missing. -/
  | validation
deriving DecidableEq, Repr

/-- Lines 51–62: the fixed field list paired positionally with the body's
paragraphs. -/
def fieldOrderBase : List String :=
  ["ies", "nome", "modalidade", "verbete", "titulacao", "campus", "categoria",
   "duracao", "site", "telefone"]

/-- Line 65, `field_order.insert(8, "endereco")`: Python `list.insert` splices
the element in before index 8. -/
def fieldOrderFull : List String :=
  fieldOrderBase.take 8 ++ "endereco" :: fieldOrderBase.drop 8

/-- Lines 64–65: when the raw body text does not contain the remote marker
(case-insensitively), the `endereco` slot is spliced in. -/
def cardFields (bodyText : List Char) : List String :=
  if isSubstring "ead".data (lowerAscii bodyText) then fieldOrderBase
  else fieldOrderFull

/-- One iteration of the loop in lines 69–74: decompose the paragraph's first
`span`, then normalize the remaining text. `none` when the paragraph has no
`span` (the `AttributeError` case). Also returns the paragraph as mutated. -/
def procPair (p : Node) : Option (String × Node) :=
  (removeFirst (tagIs "span") p).map (fun p2 => (normalizeField (innerText p2), p2))

/-- The loop of lines 69–74 over `zip(field_order, body.find_all("p"))`:
returns the assignments made, the mutated paragraphs (for the pairs actually
processed), and `some .noSpan` when the loop raised. On a raise, the pairs
before the failing one have already been decomposed. -/
def loopPairs : List (String × Node) → List (String × String) × List Node × Option ExtractError
  | [] => ([], [], none)
  | (f, p) :: rest =>
    match procPair p with
    | none => ([], [], some .noSpan)
    | some (v, p2) =>
      match loopPairs rest with
      | (d, procd, e) => ((f, v) :: d, p2 :: procd, e)

/-- The data dict: first-match lookup (each key is assigned at most once). -/
def lookupD (d : List (String × String)) (k : String) : Option String :=
  (d.find? (fun kv => kv.1 = k)).map (fun kv => kv.2)

/-- Validation, `CardData.model_validate(data)` (line 83): all required fields must have
been populated; `endereco`, `cidade`, `estado` default to `None`. -/
def validate (d : List (String × String)) (aval : Nat) (cid est : Option String)
    (year : Int) : Option CardData :=
  match lookupD d "ies", lookupD d "nome", lookupD d "modalidade", lookupD d "verbete",
        lookupD d "titulacao", lookupD d "campus", lookupD d "categoria", lookupD d "duracao",
        lookupD d "site", lookupD d "telefone" with
  | some ies, some nome, some mo, some ve, some ti, some ca, some cat, some du,
    some si, some te =>
      some ⟨ies, nome, mo, ve, ti, ca, cat, du, lookupD d "endereco", si, te,
            aval, cid, est, year⟩
  | _, _, _, _, _, _, _, _, _, _ => none

/-- The paragraphs of the body region, `body.find_all("p")` (line 69). -/
def bodyPs (body : Node) : List Node :=
  findAll (tagIs "p") body

/-- Lines 64–74 applied to the body region: the extraction loop over the
zipped field list and paragraph list. -/
def extractLoop (body : Node) : List (String × String) × List Node × Option ExtractError :=
  loopPairs ((cardFields (innerText body)).zip (bodyPs body))

/-- Line 77: `data["avaliacao"] = len(header.find_all("img", class_="estrela"))`. -/
def cardAval (header : Node) : Nat :=
  (findAll (matchesTC "img" "estrela") header).length

/-- Lines 76–83: the header part of `process_card` and the final validation.
When the extracted modality (lowercased) is not `"ead"`, the second header
paragraph is split at its last pipe and then at the last hyphen of what
follows, giving city and state. -/
def finishCard (card : Node) (d : List (String × String)) (year : Int) :
    Except ExtractError CardData :=
  match findFirst (matchesTC "div" "box-basico") card with
  | none => .error .noHeader
  | some header =>
    match lookupD d "modalidade" with
    | none => .error .keyModalidade
    | some modal =>
      if lowerAscii modal.data = "ead".data then
        match validate d (cardAval header) none none year with
        | none => .error .validation
        | some cd => .ok cd
      else
        match (findAll (tagIs "p") header)[1]? with
        | none => .error .headerIndex
        | some p1 =>
          match rsplitOnce '-' (afterLast '|' (innerText p1)) with
          | none => .error .unpack
          | some (cb, ca) =>
            match validate d (cardAval header) (some ⟨pyStrip cb⟩) (some ⟨pyStrip ca⟩) year with
            | none => .error .validation
            | some cd => .ok cd

/-- The function `process_card(card, year)` (lines 45–83), value part: the record returned,
or the exception raised. -/
def process_card (card : Node) (year : Int) : Except ExtractError CardData :=
  match findFirst (matchesTC "div" "box-completo") card with
  | none => .error .noBody
  | some body =>
    match extractLoop body with
    | (_, _, some e) => .error e
    | (d, _, none) => finishCard card d year

mutual
/-- Replace each of the leading paragraph elements of a region by the
corresponding entry of `rs`, in document order — the combined effect of the
`decompose()` calls of lines 69–74, whose mutated paragraphs are collected by
`loopPairs`. Paragraphs beyond `rs` are left alone. (The guide markup never
nests one paragraph inside another, so replacing a paragraph wholesale agrees
with the in-place mutation of the source.) -/
def substPs : Node → List Node → Node × List Node
  | .text s, rs => (.text s, rs)
  | .elem t c a ch, rs =>
    match substPsList ch rs with
    | (ch2, rs2) => (.elem t c a ch2, rs2)
def substPsList : List Node → List Node → List Node × List Node
  | [], rs => ([], rs)
  | n :: ns, rs =>
    if tagIs "p" n then
      match rs with
      | [] => (n :: ns, [])
      | r :: rs2 =>
        match substPsList ns rs2 with
        | (ns2, rs3) => (r :: ns2, rs3)
    else
      match substPs n rs with
      | (n2, rs2) =>
        match substPsList ns rs2 with
        | (ns2, rs3) => (n2 :: ns2, rs3)
end

/-- The function `process_card(card, year)` (lines 45–83), document-state part: the card
tree as it stands when the call returns or raises. Only the body region is
touched: the paragraphs that were paired before any failure have had their
first `span` decomposed. -/
def process_card_post (card : Node) (_year : Int) : Node :=
  mapFirstD (matchesTC "div" "box-completo")
    (fun b => (substPs b (extractLoop b).2.1).1) card

/-! ### Pagination and the driver (lines 86–123) -/

/-- The function `get_page_count(page)` (lines 86–87): the second-to-last `a.page-numbers`
link's text, dots (thousands separators) removed, parsed as an integer.
`none` models the `IndexError` (fewer than two links) and `ValueError`
(unparsable text) cases. -/
def get_page_count (page : Node) : Option Int :=
  let ls := findAll (matchesTC "a" "page-numbers") page
  if 2 ≤ ls.length then
    ls[ls.length - 2]?.bind (fun l => pyInt ((innerText l).filter (fun c => c ≠ '.')))
  else none

/-- The function `get_next_page_link(page)` (lines 96–100): the `href` of the first
`a.next` link, `none` when there is no such link (or it has no `href`). -/
def get_next_page_link (page : Node) : Option String :=
  (findFirst (matchesTC "a" "next") page).bind (getAttr "href")

/-- The function `process_page(page, year)` (lines 90–93), with the generator consumed as
the driver consumes it: each `div.box-listagem` card in order, stopping at
the first card whose extraction raises. -/
def process_page (page : Node) (year : Int) : Except ExtractError (List CardData) :=
  go (findAll (matchesTC "div" "box-listagem") page)
where
  go : List Node → Except ExtractError (List CardData)
    | [] => .ok []
    | c :: cs =>
      match process_card c year with
      | .error e => .error e
      | .ok r =>
        match go cs with
        | .error e => .error e
        | .ok rs => .ok (r :: rs)

/-- The ways a whole run can abort. -/
inductive ScrapError where
  /-- a fetch failed: the requested document does not exist/respond. -/
  | transport
  /-- Raised when `get_page_count` raised (`IndexError`/`ValueError`). -/
  | pageCountLookup
  /-- line 109: `trange.get(page_count, desc="page loop")` — `trange` is a
  function, so the attribute access raises `AttributeError` before the page
  loop can start. -/
  | trangeGetAttr
  /-- a card's extraction raised. -/
  | card (e : ExtractError)
deriving DecidableEq, Repr

/-- The range `trange(start_year, end_year + 1)` (line 105): the years processed, in
order. -/
def yearRange (startY endY : Int) : List Int :=
  (List.range (endY + 1 - startY).toNat).map (fun i => startY + (i : Int))

/-- The year loop of `scrapper` (lines 105–121) as written: fetch the year's
index (`env` plays the network), read the page count, then evaluate
`trange.get(page_count, ...)` — which always raises `AttributeError`, so the
loop never reaches its body and never advances to a second year. -/
def yearLoopCode (env : Int → Option Node) : List Int → List CardData →
    Except ScrapError (List CardData)
  | [], df => .ok df
  | y :: _, _ =>
    match env y with
    | none => .error .transport
    | some page =>
      match get_page_count page with
      | none => .error .pageCountLookup
      | some _ => .error .trangeGetAttr

/-- The driver `scrapper(start_year, end_year, output_file)` (lines 103–123) as written:
the accumulated table is written to `output_file` by the single
`df.to_csv(output_file)` after the year loop; an uncaught exception aborts
the run before that write. The first component lists the file writes
performed. -/
def scrapper_code (env : Int → Option Node) (startY endY : Int) (output : String) :
    List (String × List CardData) × Except ScrapError Unit :=
  match yearLoopCode env (yearRange startY endY) [] with
  | .ok df => ([(output, df)], .ok ())
  | .error e => ([], .error e)

/-- Modelled from the spec: the §4.4 page loop. The source's line 109
(`for _ in trange.get(page_count, desc="page loop")`) cannot execute —
`trange` is a function and has no attribute `get` — so the loop the spec
describes (iterate up to `page_count` times; on each page read the next
link first, extract every card, append, follow the link or stop) is
reconstructed here from the spec's driver description, with lines 110–121
translated directly. -/
def pageLoop (envUrl : String → Option Node) (year : Int) :
    Nat → Node → List CardData → Except ScrapError (List CardData)
  | 0, _, df => .ok df
  | fuel + 1, page, df =>
    let nextLink := get_next_page_link page
    match process_page page year with
    | .error e => .error (.card e)
    | .ok recs =>
      match nextLink with
      | none => .ok (df ++ recs)
      | some url =>
        match envUrl url with
        | none => .error .transport
        | some p2 => pageLoop envUrl year fuel p2 (df ++ recs)

/-- Modelled from the spec: the year loop of §4.4 with the reconstructed page
loop in place of the unreachable source line 109. -/
def yearLoopIntended (env : Int → Option Node) (envUrl : String → Option Node) :
    List Int → List CardData → Except ScrapError (List CardData)
  | [], df => .ok df
  | y :: ys, df =>
    match env y with
    | none => .error .transport
    | some page =>
      match get_page_count page with
      | none => .error .pageCountLookup
      | some n =>
        match pageLoop envUrl y n.toNat page df with
        | .error e => .error e
        | .ok df2 => yearLoopIntended env envUrl ys df2

/-- Modelled from the spec: `scrapper` with the intended page loop; the write
of the accumulated table still happens only once, after the full run. -/
def scrapper_intended (env : Int → Option Node) (envUrl : String → Option Node)
    (startY endY : Int) (output : String) :
    List (String × List CardData) × Except ScrapError Unit :=
  match yearLoopIntended env envUrl (yearRange startY endY) [] with
  | .ok df => ([(output, df)], .ok ())
  | .error e => ([], .error e)

/-- City/state as the spec words it (§4.3 step 5): the header region's second
paragraph's text, the portion after the last pipe, split at its last hyphen
into city and state code, both trimmed. Stated independently of
`process_card` so the pipeline can be checked against it. -/
def specCityState (header : Node) : Option (String × String) :=
  ((findAll (tagIs "p") header)[1]?).bind (fun p =>
    (rsplitOnce '-' (afterLast '|' (innerText p))).map
      (fun ba => ((⟨pyStrip ba.1⟩ : String), (⟨pyStrip ba.2⟩ : String))))

/-! ### Concrete documents used by witnesses and counterexamples -/

/-- A rating star, `img.estrela`. -/
def star : Node := .elem "img" ["estrela"] [] []

/-- A labelled body paragraph: the label sits in the `span` the extractor
decomposes, the value is the sibling text. -/
def mkP (label value : String) : Node :=
  .elem "p" [] [] [.elem "span" [] [] [.text label], .text value]

/-- Header region of the remote (EAD) sample card. -/
def headerEad : Node :=
  .elem "div" ["box-basico"] []
    [.elem "p" [] [] [.text "Uni A"],
     .elem "p" [] [] [.text "Curso A | EAD"],
     star, star, star]

/-- Body region of the remote (EAD) sample card: ten labelled paragraphs, the
modality value makes the raw body text contain the remote marker. -/
def bodyEad : Node :=
  .elem "div" ["box-completo"] []
    [mkP "IES:" " Uni A",
     mkP "NOME/CURSO:" " Curso A",
     mkP "MODALIDADE:" " EAD",
     mkP "VERBETE:" " Curso integral",
     mkP "TITULACAO:" " Bacharel",
     mkP "CAMPUS:" " Campus Norte",
     mkP "CATEGORIA:" " Privada",
     mkP "DURACAO:" " 4 anos",
     mkP "SITE:" " www.unia.br",
     mkP "TELEFONE:" " (11) 1111-1111"]

/-- The remote (EAD) sample card. -/
def cardEad : Node := .elem "div" ["box-listagem"] [] [headerEad, bodyEad]

/-- Header region of the in-person sample card, with the pipe–hyphen city
line and five stars. -/
def headerPres : Node :=
  .elem "div" ["box-basico"] []
    [.elem "p" [] [] [.text "Uni B"],
     .elem "p" [] [] [.text "Curso B | Sao Paulo - SP"],
     star, star, star, star, star]

/-- Body region of the in-person sample card: eleven labelled paragraphs
(no substring "ead" anywhere), including the address slot whose value
exercises the double-comma collapse. -/
def bodyPres : Node :=
  .elem "div" ["box-completo"] []
    [mkP "IES:" " Uni B",
     mkP "NOME/CURSO:" " Curso B",
     mkP "MODALIDADE:" " Presencial",
     mkP "VERBETE:" " Curso noturno",
     mkP "TITULACAO:" " Licenciatura",
     mkP "CAMPUS:" " Campus Sul",
     mkP "CATEGORIA:" " Publica",
     mkP "DURACAO:" " 5 anos",
     mkP "ENDERECO:" " Rua A,  , Centro",
     mkP "SITE:" " www.unib.br",
     mkP "TELEFONE:" " (22) 2222-2222"]

/-- The in-person sample card. -/
def cardPres : Node := .elem "div" ["box-listagem"] [] [headerPres, bodyPres]

/-- The record the remote sample card should extract to. -/
def eadRecord : CardData :=
  ⟨"Uni A", "Curso A", "EAD", "Curso integral", "Bacharel", "Campus Norte",
   "Privada", "4 anos", none, "www.unia.br", "(11) 1111-1111", 3, none, none, 2020⟩

/-- The record the in-person sample card should extract to. -/
def presRecord : CardData :=
  ⟨"Uni B", "Curso B", "Presencial", "Curso noturno", "Licenciatura", "Campus Sul",
   "Publica", "5 anos", some "Rua A, Centro", "www.unib.br", "(22) 2222-2222", 5,
   some "Sao Paulo", some "SP", 2020⟩

/-- A one-page index for the year 2020: the two sample cards, a two-link
pager, and no `a.next` link. -/
def guidePage : Node :=
  .elem "html" [] []
    [.elem "body" [] []
      [cardEad, cardPres,
       .elem "a" ["page-numbers"] [] [.text "1"],
       .elem "a" ["page-numbers"] [] [.text "2"]]]

/-- A network in which only the 2020 index exists. -/
def guideEnv : Int → Option Node := fun y => if y = 2020 then some guidePage else none

/-- In-person card whose verbete value happens to contain the substring
"ead": the address slot is dropped (body text check) while city/state are
still populated (modality check) — the two remoteness conditions diverge. -/
def bodyMixed : Node :=
  .elem "div" ["box-completo"] []
    [mkP "IES:" " Uni C",
     mkP "NOME/CURSO:" " Curso C",
     mkP "MODALIDADE:" " Presencial",
     mkP "VERBETE:" " Oferece modulos ead",
     mkP "TITULACAO:" " Tecnologo",
     mkP "CAMPUS:" " Campus Leste",
     mkP "CATEGORIA:" " Privada",
     mkP "DURACAO:" " 3 anos",
     mkP "SITE:" " www.unic.br",
     mkP "TELEFONE:" " (33) 3333-3333"]

/-- Header of the mixed card. -/
def headerMixed : Node :=
  .elem "div" ["box-basico"] []
    [.elem "p" [] [] [.text "Uni C"],
     .elem "p" [] [] [.text "Curso C | Rio de Janeiro - RJ"],
     star, star]

/-- The mixed card: non-remote modality, remote marker in the body text. -/
def cardMixed : Node := .elem "div" ["box-listagem"] [] [headerMixed, bodyMixed]

/-- The record the mixed card extracts to: city and state populated, address
absent. -/
def mixedRecord : CardData :=
  ⟨"Uni C", "Curso C", "Presencial", "Oferece modulos ead", "Tecnologo",
   "Campus Leste", "Privada", "3 anos", none, "www.unic.br", "(33) 3333-3333", 2,
   some "Rio de Janeiro", some "RJ", 2021⟩

/-- A card with a single labelled body paragraph (used to exhibit the
mutation `decompose` performs). -/
def cardSmall : Node :=
  .elem "div" ["box-listagem"] [] [.elem "div" ["box-completo"] [] [mkP "L:" " v"]]

/-- The card `cardSmall` as it stands after extraction: the label span is gone. -/
def cardSmallAfter : Node :=
  .elem "div" ["box-listagem"] []
    [.elem "div" ["box-completo"] [] [.elem "p" [] [] [.text " v"]]]

/-- A card whose body region has no paragraph elements at all. -/
def cardNoPs : Node :=
  .elem "div" ["box-listagem"] [] [.elem "div" ["box-completo"] [] [.text "sem dados"]]

/-- Body of `cardShort2`: only two labelled paragraphs. -/
def bodyShort2 : Node :=
  .elem "div" ["box-completo"] [] [mkP "IES:" " Uni E", mkP "NOME/CURSO:" " Curso E"]

/-- A card with two body paragraphs and a well-formed (empty) header. -/
def cardShort2 : Node :=
  .elem "div" ["box-listagem"] [] [.elem "div" ["box-basico"] [] [], bodyShort2]

/-- Body of `card5`: five labelled paragraphs, modality in-person. -/
def body5 : Node :=
  .elem "div" ["box-completo"] []
    [mkP "IES:" " Uni D",
     mkP "NOME/CURSO:" " Curso D",
     mkP "MODALIDADE:" " Presencial",
     mkP "VERBETE:" " Observacao",
     mkP "TITULACAO:" " Tecnologo"]

/-- Header of `card5`, with a parseable city line. -/
def header5 : Node :=
  .elem "div" ["box-basico"] []
    [.elem "p" [] [] [.text "Uni D"],
     .elem "p" [] [] [.text "Curso D | Cidade X - XX"],
     star]

/-- A card with five body paragraphs (fewer than the eleven field names). -/
def card5 : Node := .elem "div" ["box-listagem"] [] [header5, body5]

/-- The second paragraph of `header5`. -/
def p1Card5 : Node := .elem "p" [] [] [.text "Curso D | Cidade X - XX"]

/-- A body paragraph with no span inside. -/
def pNoSpan : Node := .elem "p" [] [] [.text "Uni F"]

/-- A card one of whose paired body paragraphs has no span. -/
def cardNoSpan : Node :=
  .elem "div" ["box-listagem"] [] [.elem "div" ["box-completo"] [] [pNoSpan]]

/-- Header whose second paragraph has a pipe but no hyphen after it. -/
def headerNoHyphen : Node :=
  .elem "div" ["box-basico"] []
    [.elem "p" [] [] [.text "Uni G"],
     .elem "p" [] [] [.text "Curso G | Cidade Y"]]

/-- The second paragraph of `headerNoHyphen`. -/
def p1NoHyphen : Node := .elem "p" [] [] [.text "Curso G | Cidade Y"]

/-- In-person card whose header city line has no hyphen. -/
def cardNoHyphen : Node :=
  .elem "div" ["box-listagem"] []
    [headerNoHyphen,
     .elem "div" ["box-completo"] []
       [mkP "IES:" " Uni G",
        mkP "NOME/CURSO:" " Curso G",
        mkP "MODALIDADE:" " Presencial"]]

/-- The second-to-last pager link of `pageK`, with a thousands separator. -/
def linkK : Node := .elem "a" ["page-numbers"] [] [.text "1.234"]

/-- A page whose pager shows a thousands-separated last page number. -/
def pageK : Node :=
  .elem "div" [] [] [linkK, .elem "a" ["page-numbers"] [] [.text "Proximo"]]

/-! ### Helper lemmas -/

theorem csRun_csRun (l : List Char) :
    csRun false (csRun false l) = csRun false l ∧ csRun true (csRun true l) = csRun true l := by
  induction l with
  | nil => exact ⟨rfl, rfl⟩
  | cons c cs ih =>
    by_cases hc : c = ' '
    · subst hc
      have h2 : csRun true (csRun true cs) = csRun true cs := ih.2
      exact ⟨by simp [csRun, h2], by simp [csRun, h2]⟩
    · have h1 : csRun false (csRun false cs) = csRun false cs := ih.1
      exact ⟨by simp [csRun, hc, h1], by simp [csRun, hc, h1]⟩

theorem loopPairs_err_noSpan (l : List (String × Node)) (e : ExtractError)
    (h : (loopPairs l).2.2 = some e) : e = .noSpan := by
  induction l with
  | nil => simp [loopPairs] at h
  | cons fp rest ih =>
    obtain ⟨f, p⟩ := fp
    simp only [loopPairs] at h
    cases hp : procPair p with
    | none => rw [hp] at h; cases h; rfl
    | some vp =>
      obtain ⟨v, p2⟩ := vp
      rw [hp] at h
      exact ih h

theorem loopPairs_missing_span (l : List (String × Node))
    (h : ∃ fp ∈ l, removeFirst (tagIs "span") fp.2 = none) :
    (loopPairs l).2.2 = some .noSpan := by
  induction l with
  | nil => simp at h
  | cons fp rest ih =>
    obtain ⟨f, p⟩ := fp
    simp only [loopPairs]
    cases hp : procPair p with
    | none => rfl
    | some vp =>
      obtain ⟨v, p2⟩ := vp
      rcases h with ⟨gq, hm, hg⟩
      rcases List.mem_cons.1 hm with h1 | h1
      · subst h1
        simp only [procPair, hg, Option.map_none'] at hp
        simp at hp
      · exact ih ⟨gq, h1, hg⟩

theorem loopPairs_keys (l : List (String × Node)) (h : (loopPairs l).2.2 = none) :
    (loopPairs l).1.map Prod.fst = l.map Prod.fst := by
  induction l with
  | nil => rfl
  | cons fp rest ih =>
    obtain ⟨f, p⟩ := fp
    simp only [loopPairs] at h ⊢
    cases hp : procPair p with
    | none => rw [hp] at h; cases h
    | some vp =>
      rw [hp] at h
      obtain ⟨v, p2⟩ := vp
      have h2 : (loopPairs rest).2.2 = none := h
      show List.map Prod.fst ((f, v) :: (loopPairs rest).1) = List.map Prod.fst ((f, p) :: rest)
      simp only [List.map_cons]
      rw [ih h2]

theorem zip_map_fst {α β : Type} (l1 : List α) (l2 : List β) :
    (l1.zip l2).map Prod.fst = l1.take l2.length := by
  induction l1 generalizing l2 with
  | nil => simp
  | cons a l1 ih =>
    cases l2 with
    | nil => simp
    | cons b l2 => simp [List.zip_cons_cons, ih]

theorem lookupD_mem (d : List (String × String)) (k v : String)
    (h : lookupD d k = some v) : k ∈ d.map Prod.fst := by
  simp only [lookupD, Option.map_eq_some'] at h
  obtain ⟨kv, hkv, _⟩ := h
  have hm := List.mem_of_find?_eq_some hkv
  have hp := List.find?_some hkv
  simp only [decide_eq_true_eq] at hp
  exact hp ▸ List.mem_map_of_mem Prod.fst hm

theorem lookupD_none (d : List (String × String)) (k : String)
    (h : k ∉ d.map Prod.fst) : lookupD d k = none := by
  simp only [lookupD, Option.map_eq_none']
  rw [List.find?_eq_none]
  intro kv hkv
  simp only [decide_eq_true_eq]
  intro he
  exact h (he ▸ List.mem_map_of_mem Prod.fst hkv)

theorem lookupD_isSome (d : List (String × String)) (k : String)
    (h : k ∈ d.map Prod.fst) : (lookupD d k).isSome = true := by
  simp only [List.mem_map] at h
  obtain ⟨kv, hkv, he⟩ := h
  simp only [lookupD, Option.isSome_map']
  rw [List.find?_isSome]
  exact ⟨kv, hkv, by simp [he]⟩

theorem telefone_take_full (m : Nat)
    (h : "telefone" ∈ fieldOrderFull.take m) : "endereco" ∈ fieldOrderFull.take m := by
  rcases le_or_lt 11 m with hm | hm
  · rw [List.take_of_length_le (by rw [show fieldOrderFull.length = 11 from rfl]; exact hm)] at h ⊢
    decide
  · interval_cases m <;> revert h <;> decide

theorem endereco_take_base (m : Nat) : "endereco" ∉ fieldOrderBase.take m := by
  intro h
  have := List.take_subset m fieldOrderBase h
  revert this
  decide

theorem telefone_take_full_short (m : Nat) (hm : m < 11) :
    "telefone" ∉ fieldOrderFull.take m := by
  interval_cases m <;> decide

theorem telefone_take_base_short (m : Nat) (hm : m < 10) :
    "telefone" ∉ fieldOrderBase.take m := by
  interval_cases m <;> decide

theorem validate_none_of_no_telefone (d : List (String × String)) (aval : Nat)
    (cid est : Option String) (year : Int) (h : lookupD d "telefone" = none) :
    validate d aval cid est year = none := by
  unfold validate
  split
  · rename_i te _ _ _ _ _ _ _ _ _ heq
    rw [h] at heq
    exact absurd heq.symm (by simp)
  · rfl

mutual
theorem mapFirst_none (p : Node → Bool) (f : Node → Node) :
    ∀ n : Node, findFirst p n = none → mapFirst p f n = none
  | .text _, _ => rfl
  | .elem t c a ch, h => by
    simp only [findFirst] at h
    simp only [mapFirst, mapFirstList_none p f ch h, Option.map_none']
theorem mapFirstList_none (p : Node → Bool) (f : Node → Node) :
    ∀ ns : List Node, findFirstList p ns = none → mapFirstList p f ns = none
  | [], _ => rfl
  | n :: ns, h => by
    simp only [findFirstList] at h
    simp only [mapFirstList]
    by_cases hp : p n = true
    · rw [if_pos hp] at h; exact absurd h (by simp)
    · rw [if_neg hp] at h
      rw [if_neg hp]
      cases hf : findFirst p n with
      | some r => rw [hf] at h; exact absurd h (by simp)
      | none =>
        rw [hf] at h
        rw [mapFirst_none p f n hf]
        rw [mapFirstList_none p f ns h]
        rfl
end

mutual
theorem mapFirst_found (p : Node → Bool) (f : Node → Node) :
    ∀ (n : Node) (b : Node), findFirst p n = some b → f b = b → mapFirst p f n = some n
  | .elem t c a ch, b, h, hf => by
    simp only [findFirst] at h
    simp only [mapFirst, mapFirstList_found p f ch b h hf, Option.map_some']
theorem mapFirstList_found (p : Node → Bool) (f : Node → Node) :
    ∀ (ns : List Node) (b : Node), findFirstList p ns = some b → f b = b →
      mapFirstList p f ns = some ns
  | n :: ns, b, h, hf => by
    simp only [findFirstList] at h
    simp only [mapFirstList]
    by_cases hp : p n = true
    · rw [if_pos hp] at h
      rw [if_pos hp]
      cases h
      rw [hf]
    · rw [if_neg hp] at h
      rw [if_neg hp]
      cases hfn : findFirst p n with
      | some r =>
        rw [hfn] at h
        cases h
        rw [mapFirst_found p f n b hfn hf]
      | none =>
        rw [hfn] at h
        rw [mapFirst_none p f n hfn]
        rw [mapFirstList_found p f ns b h hf]
        rfl
end

mutual
theorem substPs_nil : ∀ n : Node, substPs n [] = (n, [])
  | .text _ => rfl
  | .elem t c a ch => by
    simp only [substPs, substPsList_nil ch]
theorem substPsList_nil : ∀ ns : List Node, substPsList ns [] = (ns, [])
  | [] => rfl
  | n :: ns => by
    simp only [substPsList]
    by_cases hp : tagIs "p" n = true
    · rw [if_pos hp]
    · rw [if_neg hp]
      rw [substPs_nil n, substPsList_nil ns]
end

theorem validate_ok (d : List (String × String)) (aval : Nat) (cid est : Option String)
    (year : Int) (cd : CardData) (h : validate d aval cid est year = some cd) :
    cd.endereco = lookupD d "endereco" ∧ cd.cidade = cid ∧ cd.estado = est
      ∧ lookupD d "modalidade" = some cd.modalidade
      ∧ lookupD d "telefone" = some cd.telefone := by
  unfold validate at h
  split at h
  · rename_i ies nome mo ve ti ca cat du si te h1 h2 h3 h4 h5 h6 h7 h8 h9 h10
    cases h
    exact ⟨rfl, rfl, rfl, h3, h10⟩
  · cases h

/-! ### The claims -/

/-- C2, the claim as stated, is false: one pass of the normalization
(whitespace-collapse then comma-collapse, lines 72–73) on `",,,"` yields
`",,"`, and a second pass yields `","`. -/
theorem C2_counterexample :
    collapseCommas (collapseSpaces (collapseCommas (collapseSpaces ",,,".data)))
      ≠ collapseCommas (collapseSpaces ",,,".data) := by decide

/-- C2 (amended): the whitespace-collapse transformation alone is idempotent —
applying `re.sub(" +", " ")` twice yields the same string as applying it
once, for every input; the comma-collapse pass is not idempotent (the
counterexample), so neither is the combined normalization. -/
theorem C2_whitespace_collapse_idempotent (l : List Char) :
    collapseSpaces (collapseSpaces l) = collapseSpaces l :=
  (csRun_csRun l).1

/-- C7: whenever the pager has at least two numbered links, `get_page_count`
returns the integer parsed from the second-to-last numbered link's text with
the thousands separators (dots) stripped. -/
theorem C7_page_count (page : Node) (l : Node)
    (h2 : 2 ≤ (findAll (matchesTC "a" "page-numbers") page).length)
    (hl : (findAll (matchesTC "a" "page-numbers") page)[(findAll (matchesTC "a" "page-numbers") page).length - 2]? = some l) :
    get_page_count page = pyInt ((innerText l).filter (fun c => c ≠ '.')) := by
  unfold get_page_count
  rw [if_pos h2, hl]
  rfl

/-- C7 witness: on a two-link pager whose second-to-last link reads "1.234",
the page count is parsed as 1234. -/
theorem C7_page_count_witness :
    get_page_count pageK = pyInt ((innerText linkK).filter (fun c => c ≠ '.'))
      ∧ get_page_count pageK = some 1234 :=
  ⟨C7_page_count pageK linkK (by decide) (by decide), by decide⟩

/-- C8: when a run aborts with an error the output file is never written; a
completed run performs exactly one write, the single `to_csv` after the year
loop (lines 103–123). -/
theorem C8_write_only_after_success (env : Int → Option Node) (startY endY : Int)
    (output : String) :
    (∀ err : ScrapError, (scrapper_code env startY endY output).2 = .error err →
        (scrapper_code env startY endY output).1 = [])
    ∧ (∀ u : Unit, (scrapper_code env startY endY output).2 = .ok u →
        (scrapper_code env startY endY output).1.length = 1) := by
  constructor
  · intro err he
    unfold scrapper_code at he ⊢
    cases h : yearLoopCode env (yearRange startY endY) [] with
    | ok df => rw [h] at he; simp at he
    | error e => rfl
  · intro u hu
    unfold scrapper_code at hu ⊢
    cases h : yearLoopCode env (yearRange startY endY) [] with
    | ok df => rfl
    | error e => rw [h] at hu; simp at hu

/-- C8 witness: a run whose very first fetch fails aborts with a transport
error and writes nothing. -/
theorem C8_write_only_after_success_witness :
    (scrapper_code (fun _ => none) 2020 2020 "out.csv").1 = [] :=
  (C8_write_only_after_success (fun _ => none) 2020 2020 "out.csv").1 .transport (by decide)

/-- C9: a card one of whose paired body paragraphs has no span descendant
makes extraction raise — `find("span")` returns `None` and `.decompose()`
raises `AttributeError` (modelled `.noSpan`) — instead of returning a
record. -/
theorem C9_missing_span (card : Node) (year : Int) (body : Node)
    (hb : findFirst (matchesTC "div" "box-completo") card = some body)
    (h : ∃ fp ∈ (cardFields (innerText body)).zip (bodyPs body),
        removeFirst (tagIs "span") fp.2 = none) :
    process_card card year = .error .noSpan := by
  have h2 : (extractLoop body).2.2 = some .noSpan := loopPairs_missing_span _ h
  simp only [process_card, hb]
  rcases hE : extractLoop body with ⟨d, procd, err⟩
  rw [hE] at h2
  have h3 : err = some .noSpan := h2
  subst h3
  rfl

/-- C9 witness: the concrete card whose only paired paragraph has no span. -/
theorem C9_missing_span_witness : process_card cardNoSpan 2020 = .error .noSpan :=
  C9_missing_span cardNoSpan 2020 (.elem "div" ["box-completo"] [] [pNoSpan])
    (by decide) ⟨("ies", pNoSpan), by decide, by decide⟩

/-- C10: when the extracted modality is not "ead" (case-insensitively) but the
header's second paragraph text has no hyphen after its last pipe, extraction
raises — `rsplit("-", maxsplit=1)` yields one part and unpacking it into two
names raises `ValueError` (modelled `.unpack`) — instead of returning a
record with a default city or state. -/
theorem C10_no_hyphen (card : Node) (year : Int) (body header : Node) (modal : String)
    (p1 : Node)
    (hb : findFirst (matchesTC "div" "box-completo") card = some body)
    (hloop : (extractLoop body).2.2 = none)
    (hh : findFirst (matchesTC "div" "box-basico") card = some header)
    (hm : lookupD (extractLoop body).1 "modalidade" = some modal)
    (hml : lowerAscii modal.data ≠ "ead".data)
    (hp1 : (findAll (tagIs "p") header)[1]? = some p1)
    (hsplit : rsplitOnce '-' (afterLast '|' (innerText p1)) = none) :
    process_card card year = .error .unpack := by
  simp only [process_card, hb]
  rcases hE : extractLoop body with ⟨d, procd, err⟩
  rw [hE] at hloop hm
  have h3 : err = none := hloop
  subst h3
  have hm2 : lookupD d "modalidade" = some modal := hm
  show finishCard card d year = .error .unpack
  simp only [finishCard, hh, hm2, hp1, hsplit]
  rw [if_neg hml]

/-- C10 witness: the concrete in-person card whose city line has no hyphen. -/
theorem C10_no_hyphen_witness : process_card cardNoHyphen 2020 = .error .unpack :=
  C10_no_hyphen cardNoHyphen 2020
    (.elem "div" ["box-completo"] []
      [mkP "IES:" " Uni G", mkP "NOME/CURSO:" " Curso G", mkP "MODALIDADE:" " Presencial"])
    headerNoHyphen "Presencial" p1NoHyphen
    (by decide) (by decide) (by decide) (by decide) (by decide) (by decide) (by decide)

/-- C4, the claim as stated, is false: extraction is not free of document
side effects. On `cardSmall` the paired paragraph's label span is decomposed,
so the card tree differs after the call. -/
theorem C4_counterexample :
    process_card_post cardSmall 2020 = cardSmallAfter
      ∧ process_card_post cardSmall 2020 ≠ cardSmall := by decide

/-- C4 (amended): beyond producing the record value, extraction's only effect
is decomposing the label span of each paired body paragraph; in particular,
when the body region contains no paragraph elements nothing is paired and
the card fragment is left unchanged. -/
theorem C4_no_paragraphs_unchanged (card : Node) (year : Int) (body : Node)
    (hb : findFirst (matchesTC "div" "box-completo") card = some body)
    (hps : bodyPs body = []) :
    process_card_post card year = card := by
  have hfix : (fun b => (substPs b (extractLoop b).2.1).1) body = body := by
    show (substPs body (extractLoop body).2.1).1 = body
    have hE : extractLoop body = ([], [], none) := by
      unfold extractLoop
      rw [hps, List.zip_nil_right]
      rfl
    rw [hE]
    show (substPs body []).1 = body
    rw [substPs_nil]
  unfold process_card_post mapFirstD
  rw [mapFirst_found _ _ card body hb hfix]
  rfl

/-- C4 witness: a card whose body region holds no paragraphs comes back
unchanged. -/
theorem C4_no_paragraphs_unchanged_witness : process_card_post cardNoPs 2020 = cardNoPs :=
  C4_no_paragraphs_unchanged cardNoPs 2020
    (.elem "div" ["box-completo"] [] [.text "sem dados"]) (by decide) (by decide)

theorem extractLoop_keys (body : Node) (d : List (String × String)) (procd : List Node)
    (hE : extractLoop body = (d, procd, none)) :
    d.map Prod.fst = (cardFields (innerText body)).take (bodyPs body).length := by
  have hE2 : loopPairs ((cardFields (innerText body)).zip (bodyPs body)) = (d, procd, none) := hE
  have h1 := loopPairs_keys ((cardFields (innerText body)).zip (bodyPs body)) (by rw [hE2])
  rw [hE2] at h1
  rw [show ((d, procd, (none : Option ExtractError))).1 = d from rfl] at h1
  rw [h1, zip_map_fst]

theorem process_card_ok_inv (card : Node) (year : Int) (r : CardData)
    (hok : process_card card year = .ok r) :
    ∃ body d procd header,
      findFirst (matchesTC "div" "box-completo") card = some body
      ∧ extractLoop body = (d, procd, none)
      ∧ findFirst (matchesTC "div" "box-basico") card = some header
      ∧ lookupD d "modalidade" = some r.modalidade
      ∧ r.endereco = lookupD d "endereco"
      ∧ lookupD d "telefone" = some r.telefone
      ∧ ((lowerAscii r.modalidade.data = "ead".data ∧ r.cidade = none ∧ r.estado = none)
         ∨ (¬ lowerAscii r.modalidade.data = "ead".data
            ∧ r.cidade = (specCityState header).map Prod.fst
            ∧ r.estado = (specCityState header).map Prod.snd
            ∧ (specCityState header).isSome = true)) := by
  cases hb : findFirst (matchesTC "div" "box-completo") card with
  | none => simp [process_card, hb] at hok
  | some body =>
    simp only [process_card, hb] at hok
    rcases hE : extractLoop body with ⟨d, procd, err⟩
    rw [hE] at hok
    cases err with
    | some e => simp at hok
    | none =>
    have hok2 : finishCard card d year = .ok r := hok
    cases hh : findFirst (matchesTC "div" "box-basico") card with
    | none => simp [finishCard, hh] at hok2
    | some header =>
    simp only [finishCard, hh] at hok2
    cases hmod : lookupD d "modalidade" with
    | none => simp [hmod] at hok2
    | some modal =>
    simp only [hmod] at hok2
    by_cases hbm : lowerAscii modal.data = "ead".data
    · rw [if_pos hbm] at hok2
      cases hv : validate d (cardAval header) none none year with
      | none => simp [hv] at hok2
      | some cd =>
        rw [hv] at hok2
        have hcd : cd = r := Except.ok.inj hok2
        subst hcd
        obtain ⟨he, hc, hs, hm, ht⟩ := validate_ok _ _ _ _ _ _ hv
        have hmm : modal = cd.modalidade := by
          rw [hmod] at hm
          exact Option.some.inj hm
        subst hmm
        exact ⟨body, d, procd, header, rfl, hE, rfl, hm, he, ht, Or.inl ⟨hbm, hc, hs⟩⟩
    · rw [if_neg hbm] at hok2
      cases hp1 : (findAll (tagIs "p") header)[1]? with
      | none => simp [hp1] at hok2
      | some p1 =>
      simp only [hp1] at hok2
      cases hsp : rsplitOnce '-' (afterLast '|' (innerText p1)) with
      | none => simp [hsp] at hok2
      | some ba =>
      obtain ⟨cb, ca⟩ := ba
      simp only [hsp] at hok2
      cases hv : validate d (cardAval header) (some ⟨pyStrip cb⟩) (some ⟨pyStrip ca⟩) year with
      | none => simp [hv] at hok2
      | some cd =>
        rw [hv] at hok2
        have hcd : cd = r := Except.ok.inj hok2
        subst hcd
        obtain ⟨he, hc, hs, hm, ht⟩ := validate_ok _ _ _ _ _ _ hv
        have hmm : modal = cd.modalidade := by
          rw [hmod] at hm
          exact Option.some.inj hm
        subst hmm
        have hspec : specCityState header = some (⟨pyStrip cb⟩, ⟨pyStrip ca⟩) := by
          simp [specCityState, hp1, hsp]
        refine ⟨body, d, procd, header, rfl, hE, rfl, hm, he, ht,
          Or.inr ⟨hbm, ?_, ?_, ?_⟩⟩
        · rw [hspec, hc]
          rfl
        · rw [hspec, hs]
          rfl
        · rw [hspec]
          rfl

/-- C6: for every record successfully extracted from a card whose modality
field is not "ead" (case-insensitively), the city and state fields equal the
spec's formula applied to the header region: take the second paragraph's
text, keep the portion after the last pipe, split it at its last hyphen into
city and state code, and trim both. -/
theorem C6_city_state (card : Node) (year : Int) (r : CardData) (header : Node)
    (hok : process_card card year = .ok r)
    (hh : findFirst (matchesTC "div" "box-basico") card = some header)
    (hml : lowerAscii r.modalidade.data ≠ "ead".data) :
    r.cidade = (specCityState header).map Prod.fst
      ∧ r.estado = (specCityState header).map Prod.snd := by
  obtain ⟨body, d, procd, header2, _, _, hh2, _, _, _, hcase⟩ :=
    process_card_ok_inv card year r hok
  have hhe : header2 = header := by
    rw [hh] at hh2
    exact (Option.some.inj hh2).symm
  subst hhe
  rcases hcase with ⟨hbm, _, _⟩ | ⟨_, hc, hs, _⟩
  · exact absurd hbm hml
  · exact ⟨hc, hs⟩

/-- C6 witness: on the in-person sample card the extracted city/state are the
formula's output, "Sao Paulo"/"SP". -/
theorem C6_city_state_witness :
    presRecord.cidade = (specCityState headerPres).map Prod.fst
      ∧ presRecord.estado = (specCityState headerPres).map Prod.snd
      ∧ presRecord.cidade = some "Sao Paulo" ∧ presRecord.estado = some "SP" :=
  ⟨(C6_city_state cardPres 2020 presRecord headerPres (by decide) (by decide) (by decide)).1,
   (C6_city_state cardPres 2020 presRecord headerPres (by decide) (by decide) (by decide)).2,
   by decide, by decide⟩

/-- C5, the claim as stated, is false: a card whose body has fewer paragraph
elements than the field list can fail before schema validation — with two
paragraphs the `data["modalidade"]` lookup at line 78 raises `KeyError`
(modelled `.keyModalidade`), not a validation error. -/
theorem C5_counterexample :
    (bodyPs bodyShort2).length < (cardFields (innerText bodyShort2)).length
      ∧ process_card cardShort2 2020 = .error .keyModalidade
      ∧ ExtractError.keyModalidade ≠ ExtractError.validation := by decide

/-- C5 (amended): when the body pairs fewer paragraphs than the field list,
extraction stops early and never returns a record; if the modality field was
populated (the line-78 lookup passes) and the header stage does not fail
first (the modality reads "ead", or the city line is present and splits at a
hyphen), the failure is a schema-validation error from missing required
fields. With fewer than three paragraphs the modality lookup itself fails
first, as the counterexample shows. -/
theorem C5_validation (card : Node) (year : Int) (body header : Node) (modal : String)
    (hb : findFirst (matchesTC "div" "box-completo") card = some body)
    (hlen : (bodyPs body).length < (cardFields (innerText body)).length)
    (hloop : (extractLoop body).2.2 = none)
    (hh : findFirst (matchesTC "div" "box-basico") card = some header)
    (hm : lookupD (extractLoop body).1 "modalidade" = some modal)
    (hbr : lowerAscii modal.data = "ead".data
        ∨ ∃ p1 cb ca, (findAll (tagIs "p") header)[1]? = some p1
            ∧ rsplitOnce '-' (afterLast '|' (innerText p1)) = some (cb, ca)) :
    process_card card year = .error .validation := by
  simp only [process_card, hb]
  rcases hE : extractLoop body with ⟨d, procd, err⟩
  rw [hE] at hloop hm
  have h3 : err = none := hloop
  subst h3
  have hm2 : lookupD d "modalidade" = some modal := hm
  have hkeys := extractLoop_keys body d procd hE
  have htel : lookupD d "telefone" = none := by
    apply lookupD_none
    rw [hkeys]
    by_cases hced : isSubstring "ead".data (lowerAscii (innerText body)) = true
    · simp only [cardFields, if_pos hced] at hlen ⊢
      exact telefone_take_base_short _ (by simpa using hlen)
    · simp only [cardFields, if_neg hced] at hlen ⊢
      exact telefone_take_full_short _ (by simpa using hlen)
  show finishCard card d year = .error .validation
  simp only [finishCard, hh, hm2]
  rcases hbr with hbm | ⟨p1, cb, ca, hp1, hsp⟩
  · rw [if_pos hbm]
    rw [validate_none_of_no_telefone d (cardAval header) none none year htel]
  · by_cases hbm : lowerAscii modal.data = "ead".data
    · rw [if_pos hbm]
      rw [validate_none_of_no_telefone d (cardAval header) none none year htel]
    · rw [if_neg hbm]
      simp only [hp1, hsp]
      rw [validate_none_of_no_telefone d (cardAval header)
        (some ⟨pyStrip cb⟩) (some ⟨pyStrip ca⟩) year htel]

/-- C5 witness: the five-paragraph in-person card (eleven expected fields)
fails at schema validation. -/
theorem C5_validation_witness : process_card card5 2020 = .error .validation :=
  C5_validation card5 2020 body5 header5 "Presencial" (by decide) (by decide) (by decide)
    (by decide) (by decide)
    (Or.inr ⟨p1Card5, " Cidade X ".data, " XX".data, by decide, by decide⟩)

/-- C1, the claim as stated, is false: `cardMixed` extracts successfully to a
record with city and state populated but address absent, because the raw
body text contains "ead" (dropping the address slot, line 64) while the
modality field reads "Presencial" (keeping city/state, line 78). -/
theorem C1_counterexample :
    process_card cardMixed 2021 = .ok mixedRecord
      ∧ mixedRecord.cidade.isSome = true
      ∧ mixedRecord.estado.isSome = true
      ∧ mixedRecord.endereco = none := by decide

/-- C1 (amended): in every successfully extracted record, city and state are
present or absent together, keyed off the modality field differing
(case-insensitively) from "ead", while the address is keyed off the raw body
text containing the marker "ead" — two conditions that can disagree, as the
counterexample shows. -/
theorem C1_presence (card : Node) (year : Int) (r : CardData) (body : Node)
    (hb : findFirst (matchesTC "div" "box-completo") card = some body)
    (hok : process_card card year = .ok r) :
    ((r.cidade = none) ↔ lowerAscii r.modalidade.data = "ead".data)
      ∧ ((r.estado = none) ↔ lowerAscii r.modalidade.data = "ead".data)
      ∧ ((r.endereco = none) ↔ isSubstring "ead".data (lowerAscii (innerText body)) = true) := by
  obtain ⟨body2, d, procd, header, hb2, hE, hh, hmod, he, ht, hcase⟩ :=
    process_card_ok_inv card year r hok
  have hbe : body = body2 := by
    rw [hb] at hb2
    exact Option.some.inj hb2
  subst hbe
  have hkeys := extractLoop_keys body d procd hE
  have hend : (r.endereco = none) ↔ isSubstring "ead".data (lowerAscii (innerText body)) = true := by
    by_cases hced : isSubstring "ead".data (lowerAscii (innerText body)) = true
    · have hn : lookupD d "endereco" = none := by
        apply lookupD_none
        rw [hkeys]
        simp only [cardFields, if_pos hced]
        exact endereco_take_base _
      rw [he, hn]
      simp [hced]
    · have htels : "telefone" ∈ d.map Prod.fst := lookupD_mem d "telefone" r.telefone ht
      rw [hkeys] at htels
      have hendm : "endereco" ∈ d.map Prod.fst := by
        rw [hkeys]
        simp only [cardFields, if_neg hced] at htels ⊢
        exact telefone_take_full _ htels
      have hsome := lookupD_isSome d "endereco" hendm
      have hne : ¬ r.endereco = none := by
        rw [he]
        intro hn
        rw [hn] at hsome
        simp at hsome
      exact iff_of_false hne hced
  rcases hcase with ⟨hbm, hc, hs⟩ | ⟨hbm, hc, hs, hsome⟩
  · exact ⟨iff_of_true hc hbm, iff_of_true hs hbm, hend⟩
  · refine ⟨iff_of_false ?_ hbm, iff_of_false ?_ hbm, hend⟩
    · rw [hc]
      intro hn
      rw [Option.map_eq_none'] at hn
      rw [hn] at hsome
      simp at hsome
    · rw [hs]
      intro hn
      rw [Option.map_eq_none'] at hn
      rw [hn] at hsome
      simp at hsome

/-- C1 witness: the amended grouping on the in-person sample card. -/
theorem C1_presence_witness :
    ((presRecord.cidade = none) ↔ lowerAscii presRecord.modalidade.data = "ead".data)
      ∧ ((presRecord.estado = none) ↔ lowerAscii presRecord.modalidade.data = "ead".data)
      ∧ ((presRecord.endereco = none)
          ↔ isSubstring "ead".data (lowerAscii (innerText bodyPres)) = true) :=
  C1_presence cardPres 2020 presRecord bodyPres (by decide) (by decide)

/-- C3 (code bug at line 109): over a synthetic environment holding a single
2020 index page with one EAD card, one in-person card, a two-link pager and
no next link, the driver as written aborts with `AttributeError` — `trange`
is a function and has no attribute `get` — before processing any page, and
writes no output. The spec's intended loop on the same input yields exactly
the two records (the EAD one without city/state/address, the in-person one
with all three, both tagged with the supplied evaluation year) and
terminates after the one page. -/
theorem C3_driver_two_cards :
    scrapper_code guideEnv 2020 2020 "out.csv" = ([], .error .trangeGetAttr)
      ∧ scrapper_intended guideEnv (fun _ => none) 2020 2020 "out.csv"
          = ([("out.csv", [eadRecord, presRecord])], .ok ())
      ∧ eadRecord.cidade = none ∧ eadRecord.estado = none ∧ eadRecord.endereco = none
      ∧ presRecord.cidade.isSome = true ∧ presRecord.estado.isSome = true
      ∧ presRecord.endereco.isSome = true
      ∧ eadRecord.ano_avaliacao = 2020 ∧ presRecord.ano_avaliacao = 2020 := by decide

end Guide
